import Mathlib

/-!
Verification of the live-reload execution engine in `reloading/reloading.py`.

The Python source is shallowly embedded: the abstract syntax trees the
engine walks become inductive types, each engine function becomes an
executable Lean definition with the same name, fallible Python code
becomes `Except`, and the side effects of the recovery prompt
(stderr/stdout writes, the blocking stdin read) become an explicit
effects record.  Parts whose behavior cannot be captured purely — the
outcome of executing a freshly compiled fragment, or of calling the
currently active callable — are abstracted as function parameters, so
the controllers' control flow is modelled exactly while the dynamic
execution itself is an oracle.
-/

/-- Python exception values raised by the engine. -/
inductive PyErr where
  | lookupError (msg : String)
  | nameError (missing : String)
  | attributeError
  | valueError
  | typeError (msg : String)
deriving DecidableEq

/-- Embedded Python expression nodes: the subset of `ast` nodes the engine
inspects (`ast.Name`, `ast.Constant`, `ast.Tuple`, `ast.List`, `ast.Call`,
`ast.Attribute`). -/
inductive PyExpr where
  | name (id : String)
  | constE (value : Int)
  | tupleE (elts : List PyExpr)
  | listE (elts : List PyExpr)
  | call (func : PyExpr) (args : List PyExpr)
  | attrE (value : PyExpr) (attrName : String)

/-- Embedded Python statement nodes: `ast.For`, `ast.FunctionDef`, plus
opaque other statements.  `linenoN` is the node's source line. -/
inductive PyStmt where
  | forLoop (linenoN : Nat) (target : PyExpr) (iterE : PyExpr) (body : List PyStmt)
  | funcDef (linenoN : Nat) (fname : String) (decorator_list : List PyExpr) (body : List PyStmt)
  | exprStmt (e : PyExpr)
  | passStmt

/-- Embedded `ast.Module`: the parse tree of the whole source file. -/
structure PyModule where
  body : List PyStmt

mutual
/-- Pre-order walk from one statement: the statement itself followed by all
statements nested in its body.  Models `ast.walk` restricted to statement
nodes — `ast.For` nodes, the only ones the loop locator matches, can only
occur as statements. -/
def walk_stmt : PyStmt → List PyStmt
  | .forLoop ln target iterE body => .forLoop ln target iterE body :: walk_stmts body
  | .funcDef ln nm decs body => .funcDef ln nm decs body :: walk_stmts body
  | .exprStmt e => [.exprStmt e]
  | .passStmt => [.passStmt]
/-- Walk of a statement list, statement by statement. -/
def walk_stmts : List PyStmt → List PyStmt
  | [] => []
  | s :: rest => walk_stmt s ++ walk_stmts rest
end

mutual
/-- Models `ast.dump`: a canonical string rendering of an expression tree,
used by `get_loop_id` as a structural fingerprint. -/
def dump_expr : PyExpr → String
  | .name id => "Name(id=" ++ id ++ ")"
  | .constE v => "Constant(value=" ++ toString v ++ ")"
  | .tupleE elts => "Tuple(elts=[" ++ dump_expr_list elts ++ "])"
  | .listE elts => "List(elts=[" ++ dump_expr_list elts ++ "])"
  | .call f args => "Call(func=" ++ dump_expr f ++ ", args=[" ++ dump_expr_list args ++ "])"
  | .attrE v a => "Attribute(value=" ++ dump_expr v ++ ", attr=" ++ a ++ ")"
/-- Comma-separated dump of a list of expressions. -/
def dump_expr_list : List PyExpr → String
  | [] => ""
  | [e] => dump_expr e
  | e :: rest => dump_expr e ++ ", " ++ dump_expr_list rest
end

/-- Models `get_loop_id` (reloading.py lines 129-132): the fingerprint of a
`for` loop is `ast.dump(node.target) + "__" + ast.dump(node.iter)`.  The
source takes the `ast.For` node; here its two fields are passed. -/
def get_loop_id (target iterE : PyExpr) : String :=
  dump_expr target ++ "__" ++ dump_expr iterE

/-- Models the `", ".join(names)` call of `format_itervars`. -/
def join_comma : List String → String
  | [] => ""
  | [s] => s
  | s :: rest => s ++ ", " ++ join_comma rest

mutual
/-- Models `format_itervars` (lines 60-75): a single `ast.Name` target
renders as its id; a tuple or list target renders as the comma-join of its
children, where nested tuple/list children are wrapped in parentheses and
children of any other shape are silently skipped.  A node that is neither
a `Name` nor has an `elts` field would raise `AttributeError` in Python;
loop targets always have one of these shapes, and that case is rendered
here as the empty string. -/
def format_itervars : PyExpr → String
  | .name id => id
  | .tupleE elts => join_comma (format_itervar_pieces elts)
  | .listE elts => join_comma (format_itervar_pieces elts)
  | _ => ""
/-- The per-child pieces of `format_itervars` on an `elts` list: `Name`
children contribute their id, `Tuple`/`List` children contribute their
recursive rendering in parentheses, all other children are skipped. -/
def format_itervar_pieces : List PyExpr → List String
  | [] => []
  | .name id :: rest => id :: format_itervar_pieces rest
  | .tupleE elts :: rest =>
      ("(" ++ format_itervars (.tupleE elts) ++ ")") :: format_itervar_pieces rest
  | .listE elts :: rest =>
      ("(" ++ format_itervars (.listE elts) ++ ")") :: format_itervar_pieces rest
  | _ :: rest => format_itervar_pieces rest
end

/-- Models the candidate test of `isolate_loop_body_and_get_itervars`
(lines 103-111): the node must be an `ast.For` whose iterable is a call to
the name `reloading`, and then either the established `loop_id` equals the
node's fingerprint, or the node's line number equals the recorded line —
the line-number disjunct is checked regardless of whether a `loop_id` is
established.  Accessing `.id` on a callee that is not an `ast.Name` raises
`AttributeError`, as in the source. -/
def loop_candidate_condition (lineno : Nat) (loop_id : Option String) (s : PyStmt) :
    Except PyErr Bool :=
  match s with
  | .forLoop ln target iterE _ =>
    match iterE with
    | .call f _ =>
      match f with
      | .name fid =>
          .ok (fid == "reloading" &&
            ((match loop_id with
              | some lid => lid == get_loop_id target iterE
              | none => false)
             || ln == lineno))
      | _ => .error .attributeError
    | _ => .ok false
  | _ => .ok false

/-- The candidate-collection loop of `isolate_loop_body_and_get_itervars`
(lines 101-112): every walked node passing the candidate test, in walk
order. -/
def collect_candidates (lineno : Nat) (loop_id : Option String) :
    List PyStmt → Except PyErr (List PyStmt)
  | [] => .ok []
  | s :: rest =>
    match loop_candidate_condition lineno loop_id s with
    | .error e => .error e
    | .ok b =>
      match collect_candidates lineno loop_id rest with
      | .error e => .error e
      | .ok tail => .ok (if b then s :: tail else tail)

/-- The `LookupError` message raised when more than one loop matches
(lines 114-117). -/
def ambiguous_loop_message : String :=
  "The reloading loop is ambigious. Use `reloading` only once per line and make sure that the code in that line is unique within the source file."

/-- The `LookupError` message raised when no loop matches (lines 119-122). -/
def missing_loop_message : String :=
  "Could not locate reloading loop. Please make sure the code in the line that uses `reloading` doesn't change between reloads."

/-- The candidate-count checks of `isolate_loop_body_and_get_itervars`
(lines 114-126): raise `LookupError` with the ambiguity message when more
than one candidate matched and with the missing message when none did;
otherwise the module body becomes the single matching loop's body, and it
is returned with the loop's target and fingerprint.  (Candidates are `For`
nodes by construction; the final fallback mirrors the attribute accesses
`loop_node.body`/`loop_node.target` failing on anything else.) -/
def isolate_from_candidates (candidate_nodes : List PyStmt) :
    Except PyErr (PyModule × PyExpr × String) :=
  if 1 < candidate_nodes.length then .error (.lookupError ambiguous_loop_message)
  else
    match candidate_nodes with
    | [] => .error (.lookupError missing_loop_message)
    | loop_node :: _ =>
      match loop_node with
      | .forLoop _ target iterE body => .ok (⟨body⟩, target, get_loop_id target iterE)
      | _ => .error .attributeError

/-- Models `isolate_loop_body_and_get_itervars` (lines 98-126): collect the
candidate loops from the walked tree, then apply the exactly-one checks. -/
def isolate_loop_body_and_get_itervars (tree : PyModule) (lineno : Nat)
    (loop_id : Option String) : Except PyErr (PyModule × PyExpr × String) :=
  match collect_candidates lineno loop_id (walk_stmts tree.body) with
  | .error e => .error e
  | .ok candidate_nodes => isolate_from_candidates candidate_nodes

/-- An executable unit produced by `compile` of an isolated tree. -/
structure CompiledCode where
  mod : PyModule

/-- The three possible outcomes of one pass of the `while True` body of
`get_loop_code` (lines 135-144). -/
inductive LoopCodeStep where
  | success (compiled : CompiledCode) (itervars : String) (found_loop_id : String)
  | retry
  | propagate (e : PyErr)

/-- Models one pass of `get_loop_code`'s retry loop over a freshly parsed
tree: on success the isolated body is compiled and the formatted iteration
variables plus the found fingerprint are returned; a `LookupError` from
isolation is reported via `handle_exception` and the loop retries with no
fragment compiled; any other exception propagates. -/
def get_loop_code_step (tree : PyModule) (lineno : Nat) (loop_id : Option String) :
    LoopCodeStep :=
  match isolate_loop_body_and_get_itervars tree lineno loop_id with
  | .ok (isolated, itervars, found) =>
      .success ⟨isolated⟩ (format_itervars itervars) found
  | .error (.lookupError _) => .retry
  | .error e => .propagate e

/-- The externally visible effects of one `handle_exception` call: the text
written to stderr, the text written to stdout, and how many lines are read
from stdin before control returns. -/
structure PromptEffects where
  stderrText : String
  stdoutText : String
  stdinLinesRead : Nat
deriving DecidableEq

/-- Character-level engine of Python `str.replace`: scan left to right,
and wherever the (non-empty) pattern is a prefix of the remaining input,
emit the replacement and skip the match.  The fuel argument is set to the
input length by the wrapper, which is enough because every step consumes
at least one input character. -/
def replace_chars (pat repl : List Char) : Nat → List Char → List Char
  | 0, s => s
  | _ + 1, [] => []
  | fuel + 1, c :: rest =>
    if pat.isPrefixOf (c :: rest) && !pat.isEmpty then
      repl ++ replace_chars pat repl fuel ((c :: rest).drop pat.length)
    else
      c :: replace_chars pat repl fuel rest

/-- Executable model of Python `str.replace` (non-empty pattern). -/
def py_str_replace (s pat repl : String) : String :=
  ⟨replace_chars pat.data repl.data s.data.length s.data⟩

/-- Number of non-overlapping occurrences of a (non-empty) pattern,
scanning left to right — the same scan `replace_chars` performs. -/
def count_chars (pat : List Char) : Nat → List Char → Nat
  | 0, _ => 0
  | _ + 1, [] => 0
  | fuel + 1, c :: rest =>
    if pat.isPrefixOf (c :: rest) && !pat.isEmpty then
      1 + count_chars pat fuel ((c :: rest).drop pat.length)
    else count_chars pat fuel rest

/-- Number of occurrences of a pattern in a string. -/
def py_count_occurrences (s pat : String) : Nat :=
  count_chars pat.data s.data.length s.data

/-- Models `handle_exception` (lines 146-151): the formatted traceback has
every occurrence of the transient compilation unit name rewritten to the
real file path, the result plus a newline is written to stderr, the
fix-and-press-return instruction naming the file is printed to stdout
(with the trailing newline `print` adds), and one line is read from stdin
before returning. -/
def handle_exception (exc fpath : String) : PromptEffects :=
  { stderrText := (py_str_replace exc "File \"<string>\"" ("File \"" ++ fpath ++ "\"")) ++ "\n"
    stdoutText := "Edit " ++ fpath ++ " and press return to continue" ++ "\n"
    stdinLinesRead := 1 }

/-- One iteration of the reloading loop as observed from outside:
its index, whether the fragment was reloaded before executing, whether the
fragment's execution raised, and the recovery-prompt effects if it did. -/
structure LoopIter where
  idx : Nat
  reloaded : Bool
  raised : Bool
  report : Option PromptEffects

/-- The reload decision at the top of iteration `i` of `_reloading_loop`
(lines 167-168): at an index divisible by `every`, the fragment is
re-obtained via `get_loop_code_step` on the current parse tree,
establishing a fresh `loop_id`; if that step does not succeed the pipeline
blocks in its prompt-and-retry loop and no further iteration is reached,
modelled as `none`.  At other indices the established id is unchanged. -/
def next_loop_id (tree : PyModule) (lineno : Nat) (every i : Nat)
    (loop_id : Option String) : Option (Option String) :=
  if i % every == 0 then
    match get_loop_code_step tree lineno loop_id with
    | .success _ _ found => some (some found)
    | _ => none
  else some loop_id

/-- Models the `for i, itervar_values in enumerate(seq)` loop of
`_reloading_loop` (lines 166-176), with the outcome of executing the
compiled fragment abstracted as `bodyRaises` and the traceback text it
would produce as `excOf`.  Each iteration first applies the reload
decision, then executes the fragment: a raising execution is reported via
`handle_exception` and the loop continues with the next element; the loop
ends only when the list is exhausted. -/
def reloading_loop_go (tree : PyModule) (lineno : Nat) (every : Nat) (fpath : String)
    (bodyRaises : Nat → Bool) (excOf : Nat → String) :
    Nat → Option String → List Int → Option (List LoopIter)
  | _, _, [] => some []
  | i, loop_id, _ :: rest =>
    match next_loop_id tree lineno every i loop_id with
    | none => none
    | some lid =>
      match reloading_loop_go tree lineno every fpath bodyRaises excOf (i + 1) lid rest with
      | none => none
      | some tail =>
        some ({ idx := i
                reloaded := i % every == 0
                raised := bodyRaises i
                report := if bodyRaises i then some (handle_exception (excOf i) fpath)
                          else none } :: tail)

/-- Models `_reloading_loop` (lines 154-178): the loop starts at index 0
with no established `loop_id`. -/
def _reloading_loop (tree : PyModule) (lineno : Nat) (every : Nat) (fpath : String)
    (bodyRaises : Nat → Bool) (excOf : Nat → String) (seq : List Int) :
    Option (List LoopIter) :=
  reloading_loop_go tree lineno every fpath bodyRaises excOf 0 none seq

/-- Models `max_fail` in `wrapped` (line 255). -/
def max_fail : Nat := 3

/-- Models the `while True` retry loop of `wrapped` (lines 256-265) for one
logical call.  `att idx` is the outcome of executing the currently active
callable on the `idx`-th attempt of this call (the callable may change
between attempts, since every failure triggers a re-isolation; that is
folded into `att`).  `budget` stands for `max_fail - fail_count`; the
source enters the loop with `fail_count = 0`, i.e. `budget = max_fail`.
The second component counts the failures handled, each of which is
reported via `handle_exception` and followed by a `get_reloaded_function`
re-isolation attempt; when `fail_count` reaches `max_fail` the most recent
exception is re-raised. -/
def wrapped_go (att : Nat → Except PyErr Int) : Nat → Nat → Except PyErr Int × Nat
  | idx, 0 =>
    (match att idx with
     | .ok v => (.ok v, 0)
     | .error e => (.error e, 1))
  | idx, 1 =>
    (match att idx with
     | .ok v => (.ok v, 0)
     | .error e => (.error e, 1))
  | idx, b + 2 =>
    match att idx with
    | .ok v => (.ok v, 0)
    | .error e =>
      let r := wrapped_go att (idx + 1) (b + 1)
      (r.1, r.2 + 1)

/-- One logical call of `wrapped`: the retry loop entered with a fresh
`fail_count` of 0, i.e. a budget of `max_fail` failures. -/
def wrapped_call (att : Nat → Except PyErr Int) : Except PyErr Int × Nat :=
  wrapped_go att 0 max_fail

/-- A sequence of logical calls of the same wrapper.  `atts c` gives the
attempt outcomes of call number `c`; because `fail_count` is a local
variable of `wrapped`, every call restarts it at 0. -/
def wrapped_calls (atts : Nat → Nat → Except PyErr Int) : Nat → List (Except PyErr Int × Nat)
  | 0 => []
  | n + 1 => wrapped_calls atts n ++ [wrapped_call (atts n)]

/-- The `state` dict of `_reloading_function` (lines 245-248): the active
compiled callable (a key into the caller's namespace, abstracted as a
string tag) and the invocation counter. -/
structure ReloadFnState where
  func : Option String
  reloads : Nat

/-- The initial `state` of `_reloading_function`: `{"func": None,
"reloads": 0}` — the active callable starts unset, not as the originally
decorated function. -/
def initial_wrapped_state : ReloadFnState :=
  { func := none, reloads := 0 }

/-- Models the cadence step at the top of `wrapped` (lines 251-253): when
`reloads % every == 0`, re-isolation is attempted and `state["func"] =
get_reloaded_function(...) or state["func"]` keeps the previous callable
when re-isolation returns `None`; the invocation counter is always
incremented.  Returns the new state and whether a reload was attempted. -/
def wrapped_cadence (every : Nat) (reload_result : Option String) (s : ReloadFnState) :
    ReloadFnState × Bool :=
  if s.reloads % every == 0 then
    ({ func := (match reload_result with
                | some f => some f
                | none => s.func)
       reloads := s.reloads + 1 }, true)
  else
    ({ func := s.func, reloads := s.reloads + 1 }, false)

/-- The names defined at module level of `reloading.py` — the globals
available when `wrapped` and its helpers resolve a bare name. -/
def defined_module_names : List String :=
  ["inspect", "sys", "ast", "traceback", "types", "chain",
   "update_wrapper", "no_iter_partial", "reloading", "unique_name",
   "format_itervars", "load_file", "parse_file_until_successful",
   "isolate_loop_body_and_get_itervars", "get_loop_id", "get_loop_code",
   "handle_exception", "_reloading_loop", "get_decorator_name_or_none",
   "strip_reloading_decorator", "isolate_function_def",
   "get_function_def_code", "get_reloaded_function", "_reloading_function"]

/-- Python global-name resolution against the module namespace: an
undefined name raises `NameError`. -/
def lookup_module_name (nm : String) : Except PyErr Unit :=
  if defined_module_names.contains nm then .ok () else .error (.nameError nm)

/-- Models `get_decorator_name_or_none` (lines 181-189): a bare `Name`
decorator yields its id; a `Call` decorator yields its callee's id when the
callee is a `Name`, or the id of `callee.value` when the callee is an
`Attribute` over a `Name`; an `Attribute` callee over a non-`Name` yields
`None`.  As in the source, accessing `.func` on a decorator that is not a
`Call` (after the `Name` case) or `.value` on a callee that is not an
`Attribute` raises `AttributeError`. -/
def get_decorator_name_or_none (dec : PyExpr) : Except PyErr (Option String) :=
  match dec with
  | .name id => .ok (some id)
  | .call f _ =>
    match f with
    | .name id => .ok (some id)
    | .attrE v _ =>
      match v with
      | .name id => .ok (some id)
      | _ => .ok none
    | _ => .error .attributeError
  | _ => .error .attributeError

/-- Modelled from the spec: the intended behavior of
`strip_reloading_decorator` — remove the `reloading` marker and every
marker that precedes it in declaration order, keeping the markers after
it.  The source (lines 192-196) evidently means to build the decorator
names with its own name helper and drop everything up to and including the
`reloading` entry; `.index` raising `ValueError` when the marker is absent
is kept. -/
def strip_reloading_decorator_intended (func : PyStmt) : Except PyErr PyStmt :=
  match func with
  | .funcDef ln nm decs body =>
    match decs.mapM get_decorator_name_or_none with
    | .error e => .error e
    | .ok decorator_names =>
      match decorator_names.findIdx? (fun x => x == some "reloading") with
      | some reloading_idx => .ok (.funcDef ln nm (decs.drop (reloading_idx + 1)) body)
      | none => .error .valueError
  | _ => .error .attributeError

/-- Models `strip_reloading_decorator` as written (lines 192-196): the list
comprehension on line 194 first resolves the global name
`get_decorator_name`, which the module never defines (it defines
`get_decorator_name_or_none` instead), so the call raises `NameError`
before any decorator is inspected.  Were the name defined, the stripping
would proceed as in `strip_reloading_decorator_intended`. -/
def strip_reloading_decorator (func : PyStmt) : Except PyErr PyStmt :=
  match lookup_module_name "get_decorator_name" with
  | .error e => .error e
  | .ok _ => strip_reloading_decorator_intended func

/-- The walk of `isolate_function_def` (lines 202-213) over the flattened
node list: the first `FunctionDef` whose name matches and whose decorator
names contain `reloading` is stripped and becomes the whole module body;
if the walk ends without a match the function returns `False` and the tree
is left unchanged. -/
def isolate_function_def_go (funcname : String) (tree : PyModule) :
    List PyStmt → Except PyErr (Bool × PyModule)
  | [] => .ok (false, tree)
  | .funcDef ln nm decs body :: rest =>
    if nm == funcname then
      match decs.mapM get_decorator_name_or_none with
      | .error e => .error e
      | .ok decorator_names =>
        if decorator_names.contains (some "reloading") then
          match strip_reloading_decorator (.funcDef ln nm decs body) with
          | .error e => .error e
          | .ok stripped => .ok (true, ⟨[stripped]⟩)
        else isolate_function_def_go funcname tree rest
    else isolate_function_def_go funcname tree rest
  | _ :: rest => isolate_function_def_go funcname tree rest

/-- Models `isolate_function_def` (lines 199-214). -/
def isolate_function_def (funcname : String) (tree : PyModule) :
    Except PyErr (Bool × PyModule) :=
  isolate_function_def_go funcname tree (walk_stmts tree.body)

/-- The first positional argument of the entry point `reloading`, as a
Python value with Python truthiness. -/
inductive PyArg where
  | noneV
  | function (fname : String)
  | seq (xs : List Int)
  | intV (n : Int)

/-- Python truthiness of a `PyArg`: `None` and empty sequences are falsy. -/
def truthy : PyArg → Bool
  | .noneV => false
  | .function _ => true
  | .seq xs => !xs.isEmpty
  | .intV n => n != 0

/-- What the entry point returns: a function controller, a loop controller
driving a (possibly infinite) element stream, or — on the decorator path —
the iteration-refusing partial object with `every` bound. -/
inductive ReloadingResult where
  | functionController (fname : String) (every : Nat)
  | loopController (elems : Nat → Option Int) (every : Nat)
  | decoratorStub (every : Nat)

/-- Models the built-in `int` used as the zero-argument callable in
`iter(int, 1)`: `int()` always returns 0. -/
def int_callable : Unit → Int := fun _ => 0

/-- Models `iter(int, 1)` (line 47): a callable-sentinel iterator whose
every `next()` calls `int()` and stops when the sentinel 1 is returned.
`int()` is pure and always returns 0, so element `n` exists for every `n`
and equals 0. -/
def iter_int_sentinel (n : Nat) : Option Int :=
  let v := int_callable ()
  if v == 1 then none else some v

/-- Modelled from the spec: the "infinite counting iterable" its entry
point contract names — the stream 0, 1, 2, … of iteration indices. -/
def counting_iterable (n : Nat) : Option Int :=
  some (n : Int)

/-- Element stream of a finite list argument. -/
def seq_elems (xs : List Int) (n : Nat) : Option Int := xs[n]?

/-- Models the dispatch of the entry point `reloading` (lines 20-52): a
truthy first argument selects the function or loop controller; otherwise
`forever` truthy selects the loop controller over `iter(int, 1)`; otherwise
the decorator path returns the partial object with `every` bound. -/
def reloading (fn_or_seq : PyArg) (every : Nat) (forever : Bool) : ReloadingResult :=
  if truthy fn_or_seq then
    match fn_or_seq with
    | .function f => .functionController f every
    | .seq xs => .loopController (seq_elems xs) every
    | _ => .loopController (fun _ => none) every
  else if forever then
    .loopController iter_int_sentinel every
  else
    .decoratorStub every

/-- The `TypeError` message of `no_iter_partial.__iter__` (line 17). -/
def no_iter_message : String :=
  "Nothing to iterate over. Please pass an iterable to reloading."

/-- Models requesting an iterator from the entry point's return value: the
decorator-path partial object overrides `__iter__` to raise `TypeError`
with the descriptive message; the loop controllers iterate. -/
def iterate_result : ReloadingResult → Except PyErr Unit
  | .decoratorStub _ => .error (.typeError no_iter_message)
  | _ => .ok ()

/-! Concrete trees and attempt schedules used by the witnesses below. -/

/-- A representative reloading loop node: `for x in reloading(xs)` at
line 5, with a `pass` body. -/
def demo_loop : PyStmt :=
  .forLoop 5 (.name "x") (.call (.name "reloading") [.name "xs"]) [.passStmt]

/-- A module whose only statement is `demo_loop`. -/
def demo_tree : PyModule := ⟨[demo_loop]⟩

/-- The fingerprint of `demo_loop`. -/
def demo_loop_id : String :=
  get_loop_id (.name "x") (.call (.name "reloading") [.name "xs"])

/-- A structurally identical copy of `demo_loop` on line 9. -/
def demo_loop_9 : PyStmt :=
  .forLoop 9 (.name "x") (.call (.name "reloading") [.name "xs"]) [.passStmt]

/-- A module with two structurally matching reloading loops: once an
identity is established both loops match it, making lookup ambiguous. -/
def demo_ambiguous_tree : PyModule := ⟨[demo_loop, demo_loop_9]⟩

/-- A function definition `f` carrying three markers, `reloading` in the
middle: `@early_marker @reloading @kept_marker def f(): pass`. -/
def demo_decorated_fn : PyStmt :=
  .funcDef 1 "f" [.name "early_marker", .name "reloading", .name "kept_marker"] [.passStmt]

/-- A module whose only statement is `demo_decorated_fn`. -/
def demo_fn_tree : PyModule := ⟨[demo_decorated_fn]⟩

/-- C7: every error report is written to the standard error stream with
each reference to the transient `<string>` compilation unit rewritten to
the real source path, the fix-and-press-return instruction naming the file
is written to standard output, and one line of operator input is read
(blocking) before control returns; on a representative traceback the
rewrite leaves no `<string>` reference and names the real file exactly
once. -/
theorem c7_handle_exception_contract :
    (∀ exc fpath : String,
      handle_exception exc fpath =
        { stderrText := py_str_replace exc "File \"<string>\"" ("File \"" ++ fpath ++ "\"") ++ "\n"
          stdoutText := "Edit " ++ fpath ++ " and press return to continue" ++ "\n"
          stdinLinesRead := 1 }) ∧
    py_count_occurrences
      (handle_exception "  File \"<string>\", line 1, in <module>\nboom" "demo.py").stderrText
      "<string>" = 0 ∧
    py_count_occurrences
      (handle_exception "  File \"<string>\", line 1, in <module>\nboom" "demo.py").stderrText
      "demo.py" = 1 ∧
    (handle_exception "  File \"<string>\", line 1, in <module>\nboom" "demo.py").stdoutText =
      "Edit demo.py and press return to continue\n" ∧
    (handle_exception "  File \"<string>\", line 1, in <module>\nboom" "demo.py").stdinLinesRead
      = 1 :=
  ⟨fun _ _ => rfl, rfl, rfl, rfl, rfl⟩

/-- C8: `format_itervars` renders a single-name target as that name,
renders list targets exactly like tuple targets (comma-joined pieces with
nested groups parenthesized), and renders the nested target `a, (b, c)`
as the string "a, (b, c)". -/
theorem c8_format_itervars :
    (∀ s : String, format_itervars (.name s) = s) ∧
    (∀ elts : List PyExpr, format_itervars (.listE elts) = format_itervars (.tupleE elts)) ∧
    format_itervars (.tupleE [.name "a", .tupleE [.name "b", .name "c"]]) = "a, (b, c)" :=
  ⟨fun _ => rfl, fun _ => rfl, rfl⟩

/-- C10: every falsy first argument — `None`, the empty list, zero — with
`forever` unset takes the decorator path: the entry point returns the
partial object with `every` bound, and asking that object for an iterator
raises `TypeError` saying there is nothing to iterate over and asking for
an iterable. -/
theorem c10_falsy_argument_decorator_path (arg : PyArg) (every : Nat)
    (h : truthy arg = false) :
    reloading arg every false = .decoratorStub every ∧
    iterate_result (reloading arg every false) =
      .error (.typeError "Nothing to iterate over. Please pass an iterable to reloading.") := by
  have hr : reloading arg every false = .decoratorStub every := by
    simp [reloading, h]
  exact ⟨hr, by rw [hr]; rfl⟩

/-- Witness for C10 at the empty list, `every = 2`. -/
theorem c10_witness :
    truthy (.seq []) = false ∧
    reloading (.seq []) 2 false = .decoratorStub 2 ∧
    iterate_result (reloading (.seq []) 2 false) =
      .error (.typeError "Nothing to iterate over. Please pass an iterable to reloading.") :=
  ⟨rfl, (c10_falsy_argument_decorator_path (.seq []) 2 rfl).1,
    (c10_falsy_argument_decorator_path (.seq []) 2 rfl).2⟩

/-- C9 counterexample: with `forever` set and no iterable the entry point
drives the loop case with `iter(int, 1)`, whose element at index 1 is 0 —
not the 1 a counting sequence has there — so the loop is not fed the next
value of a counting sequence. -/
theorem c9_counterexample :
    reloading .noneV 1 true = .loopController iter_int_sentinel 1 ∧
    iter_int_sentinel 1 = some 0 ∧
    counting_iterable 1 = some 1 ∧
    iter_int_sentinel 1 ≠ counting_iterable 1 :=
  ⟨rfl, rfl, rfl, by decide⟩

/-- C9 (amended): with `forever` true and no iterable the entry point
behaves as the loop case driven by the infinite iterable `iter(int, 1)`;
`int()` always returns 0 and never the sentinel 1, so that iterable never
reaches the exhausted state and every iteration feeds the constant value
0 — not a counting sequence — into the caller's environment. -/
theorem c9_forever_constant_stream (every n : Nat) :
    reloading .noneV every true = .loopController iter_int_sentinel every ∧
    iter_int_sentinel n = some 0 ∧
    iter_int_sentinel n ≠ none :=
  ⟨rfl, rfl, by simp [iter_int_sentinel, int_callable]⟩

/-- C5 counterexample: the function controller's `state` starts with
`"func": None` — not the originally defined function — and when the very
first re-isolation fails the active callable is still `None`, so at that
invocation the wrapper has no runnable implementation. -/
theorem c5_counterexample :
    initial_wrapped_state.func = none ∧
    initial_wrapped_state.func ≠ some "fn" ∧
    ((wrapped_cadence 1 none initial_wrapped_state).1).func = none :=
  ⟨rfl, by decide, rfl⟩

/-- C5 (amended): the active callable starts as `None` rather than as the
originally defined function; the first invocation always attempts a reload
(the invocation count starts at 0); whenever re-isolation fails the
previously active callable — possibly still `None` — is kept unchanged;
and once some callable is active the wrapper never loses it, so from the
first successful reload on it always has a runnable implementation. -/
theorem c5_state_invariants (every : Nat) (r : Option String) (s : ReloadFnState)
    (f : String) (hev : 1 ≤ every) :
    initial_wrapped_state.func = none ∧
    (r = none → ((wrapped_cadence every r s).1).func = s.func) ∧
    (s.func = some f → (((wrapped_cadence every r s).1).func).isSome = true) ∧
    (s.reloads = 0 → (wrapped_cadence every r s).2 = true) := by
  refine ⟨rfl, ?_, ?_, ?_⟩
  · rintro rfl
    unfold wrapped_cadence
    split <;> rfl
  · intro hf
    unfold wrapped_cadence
    split
    · cases r <;> simp [hf]
    · simp [hf]
  · intro h0
    unfold wrapped_cadence
    simp [h0]

/-- Witness for C5 (amended) at `every = 1`, a failing reload and a state
holding an active callable. -/
theorem c5_witness :
    1 ≤ 1 ∧
    (initial_wrapped_state.func = none ∧
     ((none : Option String) = none →
        ((wrapped_cadence 1 none ⟨some "fn", 0⟩).1).func = (⟨some "fn", 0⟩ : ReloadFnState).func) ∧
     ((⟨some "fn", 0⟩ : ReloadFnState).func = some "fn" →
        (((wrapped_cadence 1 none ⟨some "fn", 0⟩).1).func).isSome = true) ∧
     ((⟨some "fn", 0⟩ : ReloadFnState).reloads = 0 →
        (wrapped_cadence 1 none ⟨some "fn", 0⟩).2 = true)) :=
  ⟨by decide, c5_state_invariants 1 none ⟨some "fn", 0⟩ "fn" (by decide)⟩

/-- C6 (code bug): isolating a reload-decorated function definition raises
`NameError`, because line 194 of the source calls `get_decorator_name`, a
global the module never defines — it defines `get_decorator_name_or_none`
instead — so the documented stripping (drop the `reloading` marker and the
markers before it, keep the ones after) never happens; the modelled intent
computes exactly that stripping, and when no matching decorated definition
exists isolation does return false without raising. -/
theorem c6_strip_decorator_name_error :
    isolate_function_def "f" demo_fn_tree = .error (.nameError "get_decorator_name") ∧
    defined_module_names.contains "get_decorator_name" = false ∧
    defined_module_names.contains "get_decorator_name_or_none" = true ∧
    strip_reloading_decorator_intended demo_decorated_fn =
      .ok (.funcDef 1 "f" [.name "kept_marker"] [.passStmt]) ∧
    isolate_function_def "absent" demo_fn_tree = .ok (false, demo_fn_tree) :=
  ⟨rfl, rfl, rfl, rfl, rfl⟩

/-- C1 counterexample: with an identity already established (a `loop_id`
that matches no loop in the tree), the candidate test still accepts the
loop whose line number equals the recorded line, and isolation succeeds on
it — so after the first lookup a candidate can match without its identity
equalling the established one, and the line number is still consulted. -/
theorem c1_counterexample :
    loop_candidate_condition 5 (some "ZZZ") demo_loop = .ok true ∧
    get_loop_id (.name "x") (.call (.name "reloading") [.name "xs"]) ≠ "ZZZ" ∧
    isolate_loop_body_and_get_itervars demo_tree 5 (some "ZZZ") =
      .ok (⟨[.passStmt]⟩, .name "x",
        get_loop_id (.name "x") (.call (.name "reloading") [.name "xs"])) :=
  ⟨rfl, by decide, rfl⟩

/-- C1 (amended): the line number remains a matching criterion on every
lookup, not only the first: a candidate `for` loop over a call to
`reloading` matches exactly when the established identity equals its
fingerprint or its source line equals the recorded line; before an
identity is established only the line criterion applies. -/
theorem c1_match_criterion (lineno ln : Nat) (lid : String) (target : PyExpr)
    (args : List PyExpr) (body : List PyStmt) :
    (loop_candidate_condition lineno (some lid)
        (.forLoop ln target (.call (.name "reloading") args) body) =
      .ok ((lid == get_loop_id target (.call (.name "reloading") args)) || (ln == lineno))) ∧
    (loop_candidate_condition lineno none
        (.forLoop ln target (.call (.name "reloading") args) body) =
      .ok (ln == lineno)) := by
  constructor
  · simp [loop_candidate_condition]
  · simp [loop_candidate_condition]

set_option maxRecDepth 40000 in
/-- C2: loop isolation returns exactly one fragment: more than one
matching candidate raises the `LookupError` whose message speaks of
ambiguity, zero candidates raise the distinct missing-loop `LookupError`,
and in both failure cases the surrounding `get_loop_code` pass retries
instead of compiling or executing any fragment. -/
theorem c2_exactly_one_fragment (tree : PyModule) (lineno : Nat)
    (loop_id : Option String) (cands : List PyStmt)
    (h : collect_candidates lineno loop_id (walk_stmts tree.body) = .ok cands) :
    (1 < cands.length →
      isolate_loop_body_and_get_itervars tree lineno loop_id =
        .error (.lookupError ambiguous_loop_message)) ∧
    (cands.length = 0 →
      isolate_loop_body_and_get_itervars tree lineno loop_id =
        .error (.lookupError missing_loop_message)) ∧
    ambiguous_loop_message ≠ missing_loop_message ∧
    py_count_occurrences ambiguous_loop_message "ambig" = 1 ∧
    (cands.length ≠ 1 → get_loop_code_step tree lineno loop_id = .retry) := by
  have hiso : isolate_loop_body_and_get_itervars tree lineno loop_id =
      isolate_from_candidates cands := by
    unfold isolate_loop_body_and_get_itervars
    rw [h]
  have hamb : 1 < cands.length →
      isolate_loop_body_and_get_itervars tree lineno loop_id =
        .error (.lookupError ambiguous_loop_message) := by
    intro h1
    rw [hiso]
    unfold isolate_from_candidates
    rw [if_pos h1]
  have hmiss : cands.length = 0 →
      isolate_loop_body_and_get_itervars tree lineno loop_id =
        .error (.lookupError missing_loop_message) := by
    intro h0
    rw [hiso]
    unfold isolate_from_candidates
    cases cands with
    | nil => rfl
    | cons a l => simp at h0
  refine ⟨hamb, hmiss, by decide, by decide, ?_⟩
  intro hne
  rcases Nat.lt_or_ge 1 cands.length with hgt | hle
  · unfold get_loop_code_step
    rw [hamb hgt]
  · have h0 : cands.length = 0 := by omega
    unfold get_loop_code_step
    rw [hmiss h0]

set_option maxRecDepth 40000 in
/-- Witness for C2 on a module holding two structurally matching loops,
with their common identity established. -/
theorem c2_witness :
    isolate_loop_body_and_get_itervars demo_ambiguous_tree 5 (some demo_loop_id) =
      .error (.lookupError ambiguous_loop_message) ∧
    ambiguous_loop_message ≠ missing_loop_message ∧
    py_count_occurrences ambiguous_loop_message "ambig" = 1 ∧
    get_loop_code_step demo_ambiguous_tree 5 (some demo_loop_id) = .retry := by
  have hc : collect_candidates 5 (some demo_loop_id) (walk_stmts demo_ambiguous_tree.body) =
      .ok [demo_loop, demo_loop_9] := rfl
  have hall := c2_exactly_one_fragment demo_ambiguous_tree 5 (some demo_loop_id)
    [demo_loop, demo_loop_9] hc
  exact ⟨hall.1 (by decide), hall.2.2.1, hall.2.2.2.1, hall.2.2.2.2 (by decide)⟩

/-- C4: within a single wrapped call, every execution failure is reported
(and followed by a re-isolation attempt) before the next retry; a third
consecutive failure propagates the most recent exception to the caller;
two failures followed by a success return the successful result with
exactly the two failures handled; and because the failure count is a local
of `wrapped`, a call after a propagated failure starts fresh, so the
wrapper stays usable. -/
theorem c4_wrapped_retry (attA attB attC : Nat → Except PyErr Int)
    (e0 e1 e2 : PyErr) (v w : Int)
    (ha0 : attA 0 = .error e0) (ha1 : attA 1 = .error e1) (ha2 : attA 2 = .error e2)
    (hb0 : attB 0 = .error e0) (hb1 : attB 1 = .error e1) (hb2 : attB 2 = .ok v)
    (hc0 : attC 0 = .ok w)
    (atts : Nat → Nat → Except PyErr Int)
    (hat0 : atts 0 = attA) (hat1 : atts 1 = attC) :
    wrapped_call attA = (.error e2, 3) ∧
    wrapped_call attB = (.ok v, 2) ∧
    wrapped_call attC = (.ok w, 0) ∧
    wrapped_calls atts 2 = [(.error e2, 3), (.ok w, 0)] := by
  have ga2 : wrapped_go attA 2 1 = (.error e2, 1) := by
    unfold wrapped_go
    rw [ha2]
  have ga1 : wrapped_go attA 1 2 = (.error e2, 2) := by
    unfold wrapped_go
    rw [ha1, ga2]
  have ga0 : wrapped_call attA = (.error e2, 3) := by
    unfold wrapped_call max_fail wrapped_go
    rw [ha0, ga1]
  have gb2 : wrapped_go attB 2 1 = (.ok v, 0) := by
    unfold wrapped_go
    rw [hb2]
  have gb1 : wrapped_go attB 1 2 = (.ok v, 1) := by
    unfold wrapped_go
    rw [hb1, gb2]
  have gb0 : wrapped_call attB = (.ok v, 2) := by
    unfold wrapped_call max_fail wrapped_go
    rw [hb0, gb1]
  have gc0 : wrapped_call attC = (.ok w, 0) := by
    unfold wrapped_call max_fail wrapped_go
    rw [hc0]
  refine ⟨ga0, gb0, gc0, ?_⟩
  show wrapped_calls atts 2 = [(.error e2, 3), (.ok w, 0)]
  have : wrapped_calls atts 2 =
      (wrapped_calls atts 0 ++ [wrapped_call (atts 0)]) ++ [wrapped_call (atts 1)] := rfl
  rw [this, hat0, hat1, ga0, gc0]
  rfl

/-- The attempt schedule of a call whose three attempts all fail. -/
def demo_att_fail : Nat → Except PyErr Int :=
  fun i => .error (.typeError (if i == 0 then "e0" else if i == 1 then "e1" else "e2"))

/-- The attempt schedule of a call that fails twice, then succeeds. -/
def demo_att_recover : Nat → Except PyErr Int :=
  fun i => if i == 2 then .ok 42
           else .error (.typeError (if i == 0 then "e0" else "e1"))

/-- The attempt schedule of a call that succeeds immediately. -/
def demo_att_ok : Nat → Except PyErr Int := fun _ => .ok 7

/-- Two successive calls: the first always fails, the second succeeds. -/
def demo_atts : Nat → Nat → Except PyErr Int :=
  fun c => if c == 0 then demo_att_fail else demo_att_ok

/-- Witness for C4 on the concrete attempt schedules. -/
theorem c4_witness :
    wrapped_call demo_att_fail = (.error (.typeError "e2"), 3) ∧
    wrapped_call demo_att_recover = (.ok 42, 2) ∧
    wrapped_call demo_att_ok = (.ok 7, 0) ∧
    wrapped_calls demo_atts 2 = [(.error (.typeError "e2"), 3), (.ok 7, 0)] :=
  c4_wrapped_retry demo_att_fail demo_att_recover demo_att_ok
    (.typeError "e0") (.typeError "e1") (.typeError "e2") 42 7
    rfl rfl rfl rfl rfl rfl rfl demo_atts rfl rfl

/-- Trace shape of the reloading loop recursion: a completed run has one
record per remaining element, with consecutive indices, the reload flag
tied to the cadence, and the recovery-prompt report tied to the raise
oracle. -/
theorem reloading_loop_go_trace (tree : PyModule) (lineno every : Nat) (fpath : String)
    (bodyRaises : Nat → Bool) (excOf : Nat → String) :
    ∀ (seq : List Int) (i : Nat) (lid : Option String) (trace : List LoopIter),
      reloading_loop_go tree lineno every fpath bodyRaises excOf i lid seq = some trace →
      trace.length = seq.length ∧
      trace.map (fun r => r.idx) = List.range' i seq.length ∧
      ∀ r ∈ trace,
        r.reloaded = (r.idx % every == 0) ∧
        r.raised = bodyRaises r.idx ∧
        r.report = (if bodyRaises r.idx then some (handle_exception (excOf r.idx) fpath)
                    else none) := by
  intro seq
  induction seq with
  | nil =>
    intro i lid trace h
    simp only [reloading_loop_go] at h
    obtain rfl : ([] : List LoopIter) = trace := Option.some.inj h
    refine ⟨rfl, rfl, ?_⟩
    intro r hr
    exact absurd hr (List.not_mem_nil r)
  | cons v rest ih =>
    intro i lid trace h
    simp only [reloading_loop_go] at h
    split at h
    · exact absurd h (by simp)
    · rename_i lid2 hnext
      split at h
      · exact absurd h (by simp)
      · rename_i tail hrec
        obtain rfl := Option.some.inj h
        obtain ⟨ihlen, ihmap, ihall⟩ := ih (i + 1) lid2 tail hrec
        refine ⟨?_, ?_, ?_⟩
        · simp [ihlen]
        · simp only [List.map_cons, List.length_cons, List.range'_succ]
          exact congrArg _ ihmap
        · intro r hr
          rcases List.mem_cons.mp hr with rfl | hmem
          · exact ⟨rfl, rfl, rfl⟩
          · exact ihall r hmem

/-- C3: a completed run of the reloading loop reloads the fragment exactly
at iteration indices divisible by `every`, reports a raising fragment
execution via the recovery prompt and continues with the next element, and
produces exactly one iteration per element of the input iterable — it ends
only by exhausting the input, never because a fragment execution raised. -/
theorem c3_loop_controller (tree : PyModule) (lineno every : Nat) (fpath : String)
    (bodyRaises : Nat → Bool) (excOf : Nat → String) (seq : List Int)
    (trace : List LoopIter) (hev : 1 ≤ every)
    (h : _reloading_loop tree lineno every fpath bodyRaises excOf seq = some trace) :
    trace.length = seq.length ∧
    trace.map (fun r => r.idx) = List.range seq.length ∧
    ∀ r ∈ trace,
      r.reloaded = (r.idx % every == 0) ∧
      r.raised = bodyRaises r.idx ∧
      (r.raised = true → r.report = some (handle_exception (excOf r.idx) fpath)) ∧
      (r.raised = false → r.report = none) := by
  have hall := reloading_loop_go_trace tree lineno every fpath bodyRaises excOf seq 0 none trace h
  refine ⟨hall.1, ?_, ?_⟩
  · rw [List.range_eq_range']
    exact hall.2.1
  · intro r hr
    obtain ⟨h1, h2, h3⟩ := hall.2.2 r hr
    refine ⟨h1, h2, ?_, ?_⟩
    · intro hra
      have hb : bodyRaises r.idx = true := h2.symm.trans hra
      rw [h3, hb]
      rfl
    · intro hra
      have hb : bodyRaises r.idx = false := h2.symm.trans hra
      rw [h3, hb]
      rfl

/-- The trace of the C3 witness run: three elements, cadence 2, a raise at
index 1. -/
def demo_trace : List LoopIter :=
  [{ idx := 0, reloaded := true, raised := false, report := none },
   { idx := 1, reloaded := false, raised := true,
     report := some (handle_exception "boom" "f.py") },
   { idx := 2, reloaded := true, raised := false, report := none }]

set_option maxRecDepth 40000 in
/-- Witness for C3: a three-element run over `demo_tree` with `every = 2`
and a fragment execution that raises at index 1. -/
theorem c3_witness :
    1 ≤ 2 ∧
    (demo_trace.length = ([7, 8, 9] : List Int).length ∧
     demo_trace.map (fun r => r.idx) = List.range ([7, 8, 9] : List Int).length ∧
     ∀ r ∈ demo_trace,
       r.reloaded = (r.idx % 2 == 0) ∧
       r.raised = (r.idx == 1) ∧
       (r.raised = true → r.report = some (handle_exception "boom" "f.py")) ∧
       (r.raised = false → r.report = none)) :=
  ⟨by decide,
    c3_loop_controller demo_tree 5 2 "f.py" (fun i => i == 1) (fun _ => "boom")
      [7, 8, 9] demo_trace (by decide) (by rfl)⟩
